import Mathlib

/-!
# jupiter `pkg/store/gorm`: interceptors and `Open`

A shallow embedding of `interceptor.go` and `orm.go`.

Go passes the operation context as a pointer `scope *DB` and the interceptors act
through side effects (printing, metrics, logging, tracing, reading the clock).  Here a
handler is a transformer of a `World`: the scope it mutates, the list of observable
effects emitted so far, and the clock.
-/

namespace Gorm

/-! ## Data model -/

/-- Go `error` values as far as the package distinguishes them: the two sentinels named in
`orm.go`, any other error, and an error wrapping another one (what `errors.Is` unwraps). -/
inductive GoError where
  | recordNotFound
  | slowCommand
  | other (msg : String)
  | wrapped (msg : String) (inner : GoError)
  deriving DecidableEq, Repr

/-- The sentinel `ErrRecordNotFound = gorm.ErrRecordNotFound`. -/
def ErrRecordNotFound : GoError := GoError.recordNotFound

/-- The sentinel `errSlowCommand = errors.New("mysql slow command")`. -/
def errSlowCommand : GoError := GoError.slowCommand

/-- The text of `err.Error()`. -/
def GoError.Error : GoError → String
  | .recordNotFound => "record not found"
  | .slowCommand => "mysql slow command"
  | .other msg => msg
  | .wrapped msg _ => msg

/-- The standard library's `errors.Is(err, target)`: `err` or an error it wraps is `target`. -/
def errorsIs : GoError → GoError → Bool
  | .wrapped msg inner, target =>
      decide (GoError.wrapped msg inner = target) || errorsIs inner target
  | e, target => decide (e = target)

/-- A `context.Context` value. -/
structure Context where
  id : Nat
  deriving DecidableEq, Repr

/-- A Go `interface{}` value, by dynamic type: the code only asks whether a value is a
`context.Context`. -/
inductive Any where
  | nil
  | int (n : Int)
  | str (s : String)
  | context (c : Context)
  deriving DecidableEq, Repr

/-- The fields of `gorm.Statement` that the interceptors read. -/
structure Statement where
  SQL : String
  Vars : List Any
  Table : String
  Settings : List (String × Any)
  deriving DecidableEq, Repr

/-- The operation context `scope *DB` (`DB = gorm.DB`). -/
structure DB where
  Statement : Statement
  Error : Option GoError
  RowsAffected : Int
  deriving DecidableEq, Repr

/-- The call `scope.InstanceGet(key)`: the value stored under `key`, if any. -/
def DB.InstanceGet (scope : DB) (key : String) : Option Any :=
  scope.Statement.Settings.lookup key

/-- Modelled from the spec: the type `DSN`, declared in a file that is not among the
sources, with the two fields the interceptors read, the address and the database name. -/
structure DSN where
  Addr : String
  DBName : String
  deriving DecidableEq, Repr

/-- A `time.Duration`, in nanoseconds. -/
abbrev Duration := Int

/-- Modelled from the spec: the type `Config`, declared in a file that is not among the
sources, with the fields that `Open` and the interceptors read.  The logger handle is the
`log` effect below, and the ordered interceptor list `interceptors` is passed to `Open`
next to the record, since an interceptor takes the record as an argument. -/
structure Config where
  DSN : String
  Debug : Bool
  MaxIdleConns : Int
  MaxOpenConns : Int
  ConnMaxLifetime : Duration
  SlowThreshold : Duration
  DetailSQL : Bool
  dsnCfg : Gorm.DSN
  deriving DecidableEq, Repr

/-! ## Observable effects -/

/-- The two colours of `xcolor` used by `debugInterceptor`. -/
inductive Color where
  | green
  | red
  deriving DecidableEq, Repr

/-- The severity of an `xlog` entry. -/
inductive Level where
  | warn
  | error
  | panic
  deriving DecidableEq, Repr

/-- The named fields of an `xlog` entry. -/
inductive Field where
  | FieldErr (e : GoError)
  | FieldName (s : String)
  | FieldMethod (s : String)
  | FieldExtMessage (s : String)
  | FieldAddr (s : String)
  | FieldCost (d : Duration)
  deriving DecidableEq, Repr

/-- The component-type label `metric.TypeGorm`. -/
inductive MetricType where
  | TypeGorm
  deriving DecidableEq, Repr

/-- The options given to `trace.StartSpanFromContext`. -/
inductive SpanOption where
  | TagComponent (component : String)
  | TagSpanKind (kind : String)
  deriving DecidableEq, Repr

/-- One observable effect of an interceptor.  The calls into the packages `metric`, `xlog`,
`trace` and `xcolor` of the repository, none of them among the sources, are recorded as
they are made, with their arguments. -/
inductive Event where
  /-- One `fmt.Printf("%-50s[%s] => %s\n", colour(target), time, colour(text))`. -/
  | printf (c : Color) (target : String) (clock : Int) (text : String)
  /-- One increment of `metric.LibHandleCounter` under the four label values. -/
  | counterInc (typ : MetricType) (name addr code : String)
  /-- One observation of `metric.LibHandleHistogram` under the three label values. -/
  | histogramObserve (typ : MetricType) (name addr : String) (cost : Duration)
  /-- One entry written through `options.logger`. -/
  | log (level : Level) (msg : String) (fields : List Field)
  /-- One `trace.StartSpanFromContext(ctx, operationName, opts...)`; `span` names the span. -/
  | spanStart (span : Nat) (ctx : Context) (operationName : String) (opts : List SpanOption)
  /-- One `span.SetTag(key, value)`. -/
  | spanSetTag (span : Nat) (key value : String)
  /-- One `span.Finish()`. -/
  | spanFinish (span : Nat)
  deriving DecidableEq, Repr

/-- Everything a handler can read or change: the operation context behind the pointer
`scope`, the effects emitted so far (oldest first), the clock read by `time.Now()`, and
`calls`, an instrumentation counter that no code of the package touches. -/
structure World where
  scope : DB
  events : List Event
  now : Int
  calls : Nat
  deriving DecidableEq, Repr

/-- Append effects to the world. -/
def World.emit (w : World) (es : List Event) : World :=
  { w with events := w.events ++ es }

/-- The type `Handler func(db *DB)`. -/
abbrev Handler := World → World

/-- The type `Interceptor func(*DSN, string, *Config) func(next Handler) Handler`. -/
abbrev Interceptor := DSN → String → Config → Handler → Handler

/-! ## `interceptor.go` -/

section Interceptors

/- The helper `bindSQL(sql, args)` is defined in a file of the package that is not part of
the sources at hand: every definition of this section takes it as an argument, so what is
proved of the interceptors holds for any rendering.  The rendering the specification
describes is the definition `bindSQL` after the section. -/
variable (bindSQL : String → List Any → String)

/-- The function `logSQL`. -/
def logSQL (sql : String) (args : List Any) (containArgs : Bool) : String :=
  if containArgs then bindSQL sql args else sql

/-- The function `debugInterceptor`. -/
def debugInterceptor : Interceptor := fun dsn _op _options next scope =>
  let w0 := scope.emit [Event.printf Color.green (dsn.Addr ++ "/" ++ dsn.DBName) scope.now
    ("Send: " ++ logSQL bindSQL scope.scope.Statement.SQL scope.scope.Statement.Vars true)]
  let w1 := next w0
  match w1.scope.Error with
  | some err =>
      w1.emit [Event.printf Color.red (dsn.Addr ++ "/" ++ dsn.DBName) w1.now
        ("Erro: " ++ err.Error)]
  | none =>
      w1.emit [Event.printf Color.green (dsn.Addr ++ "/" ++ dsn.DBName) w1.now
        ("Affected: " ++ toString w1.scope.RowsAffected)]

/-- The function `metricInterceptor`. -/
def metricInterceptor : Interceptor := fun dsn op options next scope =>
  let beg := scope.now
  let w1 := next scope
  let cost : Duration := w1.now - beg
  -- error metric
  let w2 :=
    match w1.scope.Error with
    | some err =>
        let w := w1.emit [Event.counterInc MetricType.TypeGorm
          (dsn.DBName ++ "." ++ w1.scope.Statement.Table) dsn.Addr "ERR"]
        if errorsIs err ErrRecordNotFound then
          w.emit [Event.log Level.error "mysql err"
            [Field.FieldErr err, Field.FieldName (dsn.DBName ++ "." ++ w1.scope.Statement.Table),
             Field.FieldMethod op]]
        else
          w.emit [Event.log Level.warn "record not found"
            [Field.FieldErr err, Field.FieldName (dsn.DBName ++ "." ++ w1.scope.Statement.Table),
             Field.FieldMethod op]]
    | none =>
        w1.emit [Event.counterInc MetricType.TypeGorm
          (dsn.DBName ++ "." ++ w1.scope.Statement.Table) dsn.Addr "OK"]
  let w3 := w2.emit [Event.histogramObserve MetricType.TypeGorm
    (dsn.DBName ++ "." ++ w2.scope.Statement.Table) dsn.Addr cost]
  if options.SlowThreshold > 0 ∧ options.SlowThreshold < cost then
    w3.emit [Event.log Level.error "slow"
      [Field.FieldErr errSlowCommand,
       Field.FieldMethod op,
       Field.FieldExtMessage
         (logSQL bindSQL w3.scope.Statement.SQL w3.scope.Statement.Vars options.DetailSQL),
       Field.FieldAddr dsn.Addr,
       Field.FieldName (dsn.DBName ++ "." ++ w3.scope.Statement.Table),
       Field.FieldCost cost]]
  else
    w3

/-- The function `traceInterceptor`.  The deferred `span.Finish()` runs when the handler
returns, after the tags are set. -/
def traceInterceptor : Interceptor := fun dsn _op options next scope =>
  match scope.scope.InstanceGet "_context" with
  | some (Any.context ctx) =>
      let span := scope.events.length
      let w0 := scope.emit [Event.spanStart span ctx "GORM"
        [SpanOption.TagComponent "mysql", SpanOption.TagSpanKind "client"]]
      let w1 := next w0
      let w2 := w1.emit
        [Event.spanSetTag span "sql.inner" dsn.DBName,
         Event.spanSetTag span "sql.addr" dsn.Addr,
         Event.spanSetTag span "span.kind" "client",
         Event.spanSetTag span "peer.service" "mysql",
         Event.spanSetTag span "db.instance" dsn.DBName,
         Event.spanSetTag span "peer.address" dsn.Addr,
         Event.spanSetTag span "peer.statement"
           (logSQL bindSQL w1.scope.Statement.SQL w1.scope.Statement.Vars options.DetailSQL)]
      w2.emit [Event.spanFinish span]
  | _ => next scope

end Interceptors

/-- Modelled from the spec: the substitution of the helper `bindSQL`, which is defined in a
file that is not among the sources, on the characters of a statement.  Going through the
statement from the left, every positional placeholder `?` is replaced by the textual
representation `text` of the next argument, and every other character is kept; a
placeholder left without an argument is kept too. -/
def bindChars (text : Any → String) : List Char → List Any → List Char
  | [], _ => []
  | c :: rest, args =>
      if c = '?' then
        match args with
        | a :: more => (text a).data ++ bindChars text rest more
        | [] => c :: bindChars text rest []
      else
        c :: bindChars text rest args

/-- Modelled from the spec: the helper `bindSQL(sql, args)`, which is defined in a file that
is not among the sources: the statement with every positional placeholder substituted by
its corresponding value's textual representation.  How Go prints a value is `text`. -/
def bindSQL (text : Any → String) (sql : String) (args : List Any) : String :=
  String.mk (bindChars text sql.data args)

/-! ## `orm.go` -/

/-- The interface `CallbackProcessor` (a wrapper of gorm's processor), over the state `σ`
of the callback registry it reads and updates. -/
structure CallbackProcessor (σ : Type) where
  /-- The method `Get(name string) func(db *gorm.DB)`. -/
  Get : σ → String → Handler
  /-- The method `Replace(name string, fn func(*DB)) error`, with the registry it leaves. -/
  Replace : σ → String → Handler → σ × Option GoError

/-- The five callback processors of an engine: `inner.Callback().Delete()`, `.Update()`,
`.Create()`, `.Query()` and `.Row()`. -/
structure Callbacks (σ : Type) where
  Delete : CallbackProcessor σ
  Update : CallbackProcessor σ
  Create : CallbackProcessor σ
  Query : CallbackProcessor σ
  Row : CallbackProcessor σ

/-- The engine handle `inner` as `Open` configures it: the callback registry, the debug
mode set by `inner.Debug()` and the pool settings of `inner.DB()`. -/
structure Inner (σ : Type) where
  registry : σ
  debug : Bool
  maxIdleConns : Option Int
  maxOpenConns : Option Int
  connMaxLifetime : Option Duration

/-- What `Open` calls outside the package: `gorm.Open(mysql.Open(dsn), &gorm.Config{})`,
`inner.DB()`, `inner.Callback()` and `xdebug.IsDevelopmentMode()`. -/
structure Engine (σ : Type) where
  gormOpen : String → Except GoError σ
  sqlDB : σ → Except GoError Unit
  Callback : Callbacks σ
  IsDevelopmentMode : Bool

/-- How a call of `Open` ends. -/
inductive OpenResult (σ : Type) where
  /-- The exit `return nil, err`. -/
  | failed (err : GoError)
  /-- The call `options.logger.Panic("failed to replace interceptor", xlog.FieldErr(err))`
  ended `Open`; `inner` is the engine at that point and `entry` the entry written. -/
  | fatal (inner : Inner σ) (entry : Event)
  /-- The exit `return inner, err` with a nil `err`. -/
  | opened (inner : Inner σ)

/-- Modelled from the spec: the method `options.logger.Panic(msg, fields...)` of package
`xlog`, which is not among the sources.  Failing to install a chain is fatal: the entry is
written at panic level and control does not return to `Open`; `registry` is the callback
registry at that point. -/
def loggerPanic {σ α : Type} (registry : σ) (msg : String) (fields : List Field) :
    Except (σ × Event) α :=
  Except.error (registry, Event.log Level.panic msg fields)

/-- The loop of the closure `replace` in `Open`:
`for _, inte := range interceptors { handler = inte(options.dsnCfg, callbackName, options)(handler) }`. -/
def replaceLoop (options : Config) (callbackName : String) :
    List Interceptor → Handler → Handler
  | [], handler => handler
  | inte :: rest, handler =>
      replaceLoop options callbackName rest (inte options.dsnCfg callbackName options handler)

/-- The closure `replace` of `Open`, on the registry: the new registry, or the entry given
to `options.logger.Panic` with the registry at that point. -/
def replace {σ : Type} (options : Config) (processor : CallbackProcessor σ)
    (callbackName : String) (interceptors : List Interceptor) (registry : σ) :
    Except (σ × Event) σ :=
  let old := processor.Get registry callbackName
  let handler := replaceLoop options callbackName interceptors old
  match processor.Replace registry callbackName handler with
  | (registry', some err) =>
      loggerPanic registry' "failed to replace interceptor" [Field.FieldErr err]
  | (registry', none) => Except.ok registry'

/-- The five calls of `replace` in `Open`, in the order of the source. -/
def replaceAll {σ : Type} (options : Config) (cb : Callbacks σ)
    (interceptors : List Interceptor) (registry : σ) : Except (σ × Event) σ := do
  let r1 ← replace options cb.Delete "gorm:delete" interceptors registry
  let r2 ← replace options cb.Update "gorm:update" interceptors r1
  let r3 ← replace options cb.Create "gorm:create" interceptors r2
  let r4 ← replace options cb.Query "gorm:query" interceptors r3
  replace options cb.Row "gorm:row" interceptors r4

/-- The function `Open`; `interceptors` is `options.interceptors`. -/
def Open {σ : Type} (engine : Engine σ) (options : Config) (interceptors : List Interceptor) :
    OpenResult σ :=
  match engine.gormOpen options.DSN with
  | Except.error err => OpenResult.failed err
  | Except.ok registry =>
    let debug := options.Debug || engine.IsDevelopmentMode
    -- default connection settings
    match engine.sqlDB registry with
    | Except.error err => OpenResult.failed err
    | Except.ok () =>
      let lifetime := if options.ConnMaxLifetime ≠ 0 then some options.ConnMaxLifetime else none
      let inner (r : σ) : Inner σ :=
        { registry := r, debug := debug, maxIdleConns := some options.MaxIdleConns,
          maxOpenConns := some options.MaxOpenConns, connMaxLifetime := lifetime }
      match replaceAll options engine.Callback interceptors registry with
      | Except.error (r, entry) => OpenResult.fatal (inner r) entry
      | Except.ok r => OpenResult.opened (inner r)

/-! ## Definitions used to state the properties -/

/-- The handler the specification describes for a list `[i1, ..., in]`: the interceptors
applied outermost-first in list order, `i1(i2(...in(base)...))`. -/
def nestOutermostFirst (options : Config) (callbackName : String) :
    List Interceptor → Handler → Handler
  | [], base => base
  | inte :: rest, base =>
      inte options.dsnCfg callbackName options (nestOutermostFirst options callbackName rest base)

/-- A base handler that only counts its own invocations. -/
def countingBase : Handler := fun w => { w with calls := w.calls + 1 }

/-- A base handler that leaves the given error in the operation context and takes
`elapsed` nanoseconds. -/
def failingBase (err : GoError) (elapsed : Int) : Handler := fun w =>
  { w with scope := { w.scope with Error := some err }, now := w.now + elapsed,
           calls := w.calls + 1 }

/-- A rendering that leaves the statement as it is, standing in for `bindSQL` at concrete
inputs. -/
def plainSQL : String → List Any → String := fun sql _ => sql

/-- A textual representation of values, for concrete inputs. -/
def sampleText : Any → String
  | Any.nil => "NULL"
  | Any.int n => toString n
  | Any.str s => s
  | Any.context _ => "context"

/-- A sample address and database name. -/
def sampleDSN : DSN := { Addr := "db:3306", DBName := "shop" }

/-- A sample configuration: no slow threshold, arguments not rendered. -/
def sampleConfig : Config :=
  { DSN := "u:p@tcp(db:3306)/shop", Debug := false, MaxIdleConns := 10, MaxOpenConns := 100,
    ConnMaxLifetime := 0, SlowThreshold := 0, DetailSQL := false, dsnCfg := sampleDSN }

/-- A sample operation context without a trace context attached. -/
def sampleScope : DB :=
  { Statement := { SQL := "SELECT * FROM users WHERE id = ?", Vars := [Any.int 7],
                   Table := "users", Settings := [] },
    Error := none, RowsAffected := 0 }

/-- The sample operation context with a trace context attached under `"_context"`. -/
def tracedScope : DB :=
  { sampleScope with
    Statement := { sampleScope.Statement with Settings := [("_context", Any.context ⟨1⟩)] } }

/-- A world around a scope: nothing emitted yet, clock at 1000, base never invoked. -/
def startWorld (scope : DB) : World := { scope := scope, events := [], now := 1000, calls := 0 }

/-- Whether an effect is a counter increment. -/
def isCounterInc : Event → Bool
  | Event.counterInc _ _ _ _ => true
  | _ => false

/-- Whether an effect is a histogram observation. -/
def isHistogramObserve : Event → Bool
  | Event.histogramObserve _ _ _ _ => true
  | _ => false

/-- Whether an effect is the slow-query log entry, the one with the message `"slow"`. -/
def isSlowLog : Event → Bool
  | Event.log _ msg _ => decide (msg = "slow")
  | _ => false

/-- Whether an effect starts a span. -/
def isSpanStart : Event → Bool
  | Event.spanStart _ _ _ _ => true
  | _ => false

/-- Whether an effect finishes a span. -/
def isSpanFinish : Event → Bool
  | Event.spanFinish _ => true
  | _ => false

/-- Whether an effect starts a span tagged with the given component. -/
def startsWithComponent (component : String) : Event → Bool
  | Event.spanStart _ _ _ opts => opts.contains (SpanOption.TagComponent component)
  | _ => false

/-- The five processors of `inner.Callback()`. -/
inductive ProcessorKind where
  | Delete
  | Update
  | Create
  | Query
  | Row
  deriving DecidableEq, Repr

/-- One call of `processor.Replace(name, handler)` as an observer of the registry sees
it: the processor and the name, the handler `processor.Get(name)` had at that moment, the
handler installed, and the error returned. -/
structure Replacement where
  processor : ProcessorKind
  callbackName : String
  old : Handler
  handler : Handler
  err : Option GoError

/-- A processor that behaves as `p` and also records every call of `Replace`. -/
def CallbackProcessor.recorded {σ : Type} (kind : ProcessorKind) (p : CallbackProcessor σ) :
    CallbackProcessor (σ × List Replacement) where
  Get := fun s name => p.Get s.1 name
  Replace := fun s name fn =>
    ((( p.Replace s.1 name fn).1,
      s.2 ++ [{ processor := kind, callbackName := name, old := p.Get s.1 name,
                handler := fn, err := (p.Replace s.1 name fn).2 }]),
     (p.Replace s.1 name fn).2)

/-- An engine that behaves as `e` and whose processors record every call of `Replace`. -/
def Engine.recorded {σ : Type} (e : Engine σ) : Engine (σ × List Replacement) where
  gormOpen := fun dsn =>
    match e.gormOpen dsn with
    | Except.ok r => Except.ok (r, [])
    | Except.error err => Except.error err
  sqlDB := fun s => e.sqlDB s.1
  Callback :=
    { Delete := e.Callback.Delete.recorded ProcessorKind.Delete
      Update := e.Callback.Update.recorded ProcessorKind.Update
      Create := e.Callback.Create.recorded ProcessorKind.Create
      Query := e.Callback.Query.recorded ProcessorKind.Query
      Row := e.Callback.Row.recorded ProcessorKind.Row }
  IsDevelopmentMode := e.IsDevelopmentMode

/-- The calls of `Replace` recorded when `Open` ended. -/
def OpenResult.replacements {σ : Type} : OpenResult (σ × List Replacement) → List Replacement
  | OpenResult.failed _ => []
  | OpenResult.fatal inner _ => inner.registry.2
  | OpenResult.opened inner => inner.registry.2

/-- Whether `Open` ended in `options.logger.Panic`. -/
def OpenResult.isFatal {σ : Type} : OpenResult σ → Bool
  | OpenResult.fatal _ _ => true
  | _ => false

/-- The five replacements of `Open`, by processor and callback name, in source order. -/
def fiveKinds : List (ProcessorKind × String) :=
  [(ProcessorKind.Delete, "gorm:delete"), (ProcessorKind.Update, "gorm:update"),
   (ProcessorKind.Create, "gorm:create"), (ProcessorKind.Query, "gorm:query"),
   (ProcessorKind.Row, "gorm:row")]

/-- A processor without state whose `Replace` returns an error, or none, as told. -/
def fixedProcessor (err : Option GoError) : CallbackProcessor Unit where
  Get := fun _ _ => countingBase
  Replace := fun _ _ _ => ((), err)

/-- An engine that opens and whose every `Replace` returns an error. -/
def rejectingEngine : Engine Unit where
  gormOpen := fun _ => Except.ok ()
  sqlDB := fun _ => Except.ok ()
  Callback :=
    { Delete := fixedProcessor (some (GoError.other "conflict"))
      Update := fixedProcessor (some (GoError.other "conflict"))
      Create := fixedProcessor (some (GoError.other "conflict"))
      Query := fixedProcessor (some (GoError.other "conflict"))
      Row := fixedProcessor (some (GoError.other "conflict")) }
  IsDevelopmentMode := false

/-- An engine that opens and whose every `Replace` succeeds. -/
def acceptingEngine : Engine Unit where
  gormOpen := fun _ => Except.ok ()
  sqlDB := fun _ => Except.ok ()
  Callback :=
    { Delete := fixedProcessor none
      Update := fixedProcessor none
      Create := fixedProcessor none
      Query := fixedProcessor none
      Row := fixedProcessor none }
  IsDevelopmentMode := false

end Gorm

namespace Gorm

/-! ## Properties -/

section Properties

variable (bindSQL : String → List Any → String)

/-! ### What each interceptor does to the invocation counter and to the scope -/

theorem emit_scope (w : World) (es : List Event) : (w.emit es).scope = w.scope := rfl

theorem emit_calls (w : World) (es : List Event) : (w.emit es).calls = w.calls := rfl

theorem emit_now (w : World) (es : List Event) : (w.emit es).now = w.now := rfl

theorem emit_events (w : World) (es : List Event) : (w.emit es).events = w.events ++ es := rfl

/-- Each of the three interceptors runs `next` once, on a world with the scope and the
counter it was given, and returns what `next` left apart from the effects it appends. -/
theorem interceptor_delegates (inte : Interceptor)
    (hin : inte = debugInterceptor bindSQL ∨ inte = metricInterceptor bindSQL ∨
      inte = traceInterceptor bindSQL)
    (dsn : DSN) (op : String) (options : Config) (next : Handler) (w : World) :
    ∃ w' : World, w'.scope = w.scope ∧ w'.calls = w.calls ∧
      (inte dsn op options next w).scope = (next w').scope ∧
      (inte dsn op options next w).calls = (next w').calls := by
  rcases hin with rfl | rfl | rfl
  · refine ⟨w.emit [Event.printf Color.green (dsn.Addr ++ "/" ++ dsn.DBName) w.now
      ("Send: " ++ logSQL bindSQL w.scope.Statement.SQL w.scope.Statement.Vars true)],
      rfl, rfl, ?_, ?_⟩ <;>
    · simp only [debugInterceptor]
      split <;> rfl
  · refine ⟨w, rfl, rfl, ?_, ?_⟩ <;>
    · simp only [metricInterceptor]
      repeat' split
      all_goals rfl
  · unfold traceInterceptor
    split
    · next ctx _ =>
      exact ⟨w.emit [Event.spanStart w.events.length ctx "GORM"
        [SpanOption.TagComponent "mysql", SpanOption.TagSpanKind "client"]], rfl, rfl, rfl, rfl⟩
    · exact ⟨w, rfl, rfl, rfl, rfl⟩

/-- The handler built by the loop runs the base handler once, on a world with the scope
and the counter the built handler was given, and returns the scope and the counter the
base handler left. -/
theorem replaceLoop_delegates (options : Config) (callbackName : String)
    (interceptors : List Interceptor)
    (hin : ∀ inte ∈ interceptors, inte = debugInterceptor bindSQL ∨
      inte = metricInterceptor bindSQL ∨ inte = traceInterceptor bindSQL)
    (base : Handler) (w : World) :
    ∃ w' : World, w'.scope = w.scope ∧ w'.calls = w.calls ∧
      (replaceLoop options callbackName interceptors base w).scope = (base w').scope ∧
      (replaceLoop options callbackName interceptors base w).calls = (base w').calls := by
  induction interceptors generalizing base w with
  | nil => exact ⟨w, rfl, rfl, rfl, rfl⟩
  | cons inte rest ih =>
    have hrest : ∀ i ∈ rest, i = debugInterceptor bindSQL ∨
        i = metricInterceptor bindSQL ∨ i = traceInterceptor bindSQL :=
      fun i hi => hin i (List.mem_cons_of_mem _ hi)
    obtain ⟨w1, hs1, hc1, hs, hc⟩ :=
      ih hrest (inte options.dsnCfg callbackName options base) w
    obtain ⟨w2, hs2, hc2, hs', hc'⟩ :=
      interceptor_delegates bindSQL inte (hin inte (List.mem_cons_self _ _))
        options.dsnCfg callbackName options base w1
    refine ⟨w2, hs2.trans hs1, hc2.trans hc1, ?_, ?_⟩
    · simpa [replaceLoop] using hs.trans hs'
    · simpa [replaceLoop] using hc.trans hc'

/-- C1: for every list of interceptors drawn from `debugInterceptor`, `metricInterceptor`
and `traceInterceptor` (of any length, the empty list included) and every operation
context, running the handler that the loop of `replace` builds around a base handler
invokes the base handler exactly once: a base handler that counts its invocations has
counted exactly one more when the built handler returns.  The same holds for
`traceInterceptor` alone around the base handler, whether or not a `"_context"` value is
attached. -/
theorem replaceLoop_invokes_base_once (options : Config) (callbackName : String)
    (interceptors : List Interceptor)
    (hin : ∀ inte ∈ interceptors, inte = debugInterceptor bindSQL ∨
      inte = metricInterceptor bindSQL ∨ inte = traceInterceptor bindSQL)
    (base : Handler) (hbase : ∀ w, (base w).calls = w.calls + 1) (w : World) :
    (replaceLoop options callbackName interceptors base w).calls = w.calls + 1 ∧
      ∀ (dsn : DSN) (op : String),
        (traceInterceptor bindSQL dsn op options base w).calls = w.calls + 1 := by
  constructor
  · obtain ⟨w', _, hc, _, hcalls⟩ :=
      replaceLoop_delegates bindSQL options callbackName interceptors hin base w
    rw [hcalls, hbase, hc]
  · intro dsn op
    obtain ⟨w', _, hc, _, hcalls⟩ :=
      interceptor_delegates bindSQL (traceInterceptor bindSQL) (Or.inr (Or.inr rfl))
        dsn op options base w
    rw [hcalls, hbase, hc]

/-- C7: for every chain built from `debugInterceptor`, `metricInterceptor` and
`traceInterceptor` and every base handler, the base handler is run on the operation
context the chain was given, and the operation context after the chain returns is the one
the base handler left: its error, statement text, bound variables, table name and
rows-affected count are unchanged by the interceptors. -/
theorem replaceLoop_preserves_scope (options : Config) (callbackName : String)
    (interceptors : List Interceptor)
    (hin : ∀ inte ∈ interceptors, inte = debugInterceptor bindSQL ∨
      inte = metricInterceptor bindSQL ∨ inte = traceInterceptor bindSQL)
    (base : Handler) (w : World) :
    ∃ w' : World, w'.scope = w.scope ∧
      (replaceLoop options callbackName interceptors base w).scope = (base w').scope ∧
      (replaceLoop options callbackName interceptors base w).scope.Error =
        (base w').scope.Error ∧
      (replaceLoop options callbackName interceptors base w).scope.Statement.SQL =
        (base w').scope.Statement.SQL ∧
      (replaceLoop options callbackName interceptors base w).scope.Statement.Vars =
        (base w').scope.Statement.Vars ∧
      (replaceLoop options callbackName interceptors base w).scope.Statement.Table =
        (base w').scope.Statement.Table ∧
      (replaceLoop options callbackName interceptors base w).scope.RowsAffected =
        (base w').scope.RowsAffected := by
  obtain ⟨w', hs, _, hscope, _⟩ :=
    replaceLoop_delegates bindSQL options callbackName interceptors hin base w
  exact ⟨w', hs, hscope, by rw [hscope], by rw [hscope], by rw [hscope], by rw [hscope],
    by rw [hscope]⟩

/-- The loop over a concatenation continues from the handler built for the first part. -/
theorem replaceLoop_append (options : Config) (callbackName : String)
    (xs ys : List Interceptor) (base : Handler) :
    replaceLoop options callbackName (xs ++ ys) base =
      replaceLoop options callbackName ys (replaceLoop options callbackName xs base) := by
  induction xs generalizing base with
  | nil => rfl
  | cons inte rest ih => simp [replaceLoop, ih]

/-- C2, as the code has it: for every base handler and every ordered list of interceptors
`[i1, ..., in]`, the handler built by the loop of `replace` is `in(...i2(i1(base))...)`:
the interceptors nested outermost-first in the reverse of list order.  The last
interceptor of the list is the outermost wrapper and the first is the wrapper immediately
around the base handler. -/
theorem replaceLoop_nests_in_reverse (options : Config) (callbackName : String)
    (interceptors : List Interceptor) (base : Handler) :
    replaceLoop options callbackName interceptors base =
        nestOutermostFirst options callbackName interceptors.reverse base ∧
      (∀ last : Interceptor,
        replaceLoop options callbackName (interceptors ++ [last]) base =
          last options.dsnCfg callbackName options
            (replaceLoop options callbackName interceptors base)) ∧
      (∀ first : Interceptor,
        replaceLoop options callbackName (first :: interceptors) base =
          replaceLoop options callbackName interceptors
            (first options.dsnCfg callbackName options base)) := by
  refine ⟨?_, fun last => ?_, fun first => rfl⟩
  · induction interceptors using List.reverseRecOn with
    | nil => rfl
    | append_singleton rest last ih =>
      rw [replaceLoop_append, List.reverse_append, ih]
      rfl
  · rw [replaceLoop_append]
    rfl

/-- Emitting twice is emitting the concatenation. -/
theorem emit_emit (w : World) (xs ys : List Event) :
    (w.emit xs).emit ys = w.emit (xs ++ ys) := by
  simp [World.emit]

/-- The effects `metricInterceptor` adds, all of them after `next` has returned: the
counter increment (followed by the error entry when the operation failed), the histogram
observation, and the slow-query entry when the threshold is positive and exceeded. -/
theorem metricInterceptor_events (dsn : DSN) (op : String) (options : Config)
    (next : Handler) (w : World) :
    (metricInterceptor bindSQL dsn op options next w).events = (next w).events ++
      ((match (next w).scope.Error with
        | some err =>
            [Event.counterInc MetricType.TypeGorm
              (dsn.DBName ++ "." ++ (next w).scope.Statement.Table) dsn.Addr "ERR",
             if errorsIs err ErrRecordNotFound then
               Event.log Level.error "mysql err"
                 [Field.FieldErr err,
                  Field.FieldName (dsn.DBName ++ "." ++ (next w).scope.Statement.Table),
                  Field.FieldMethod op]
             else
               Event.log Level.warn "record not found"
                 [Field.FieldErr err,
                  Field.FieldName (dsn.DBName ++ "." ++ (next w).scope.Statement.Table),
                  Field.FieldMethod op]]
        | none =>
            [Event.counterInc MetricType.TypeGorm
              (dsn.DBName ++ "." ++ (next w).scope.Statement.Table) dsn.Addr "OK"]) ++
       [Event.histogramObserve MetricType.TypeGorm
          (dsn.DBName ++ "." ++ (next w).scope.Statement.Table) dsn.Addr
          ((next w).now - w.now)] ++
       (if options.SlowThreshold > 0 ∧ options.SlowThreshold < (next w).now - w.now then
          [Event.log Level.error "slow"
            [Field.FieldErr errSlowCommand,
             Field.FieldMethod op,
             Field.FieldExtMessage (logSQL bindSQL (next w).scope.Statement.SQL
               (next w).scope.Statement.Vars options.DetailSQL),
             Field.FieldAddr dsn.Addr,
             Field.FieldName (dsn.DBName ++ "." ++ (next w).scope.Statement.Table),
             Field.FieldCost ((next w).now - w.now)]]
        else [])) := by
  simp only [metricInterceptor]
  cases (next w).scope.Error with
  | none =>
    by_cases hslow : options.SlowThreshold > 0 ∧ options.SlowThreshold < (next w).now - w.now
    · simp [hslow, World.emit]
    · simp [hslow, World.emit]
  | some err =>
    by_cases hslow : options.SlowThreshold > 0 ∧ options.SlowThreshold < (next w).now - w.now
    · cases hnf : errorsIs err ErrRecordNotFound <;> simp [hslow, hnf, World.emit]
    · cases hnf : errorsIs err ErrRecordNotFound <;> simp [hslow, hnf, World.emit]

/-- C4: for every invocation of the handler produced by `metricInterceptor`, the effects
it adds after `next` returns hold exactly one counter increment and exactly one histogram
observation, both labeled `(TypeGorm, DBName + "." + Table, Addr)`; the outcome label of
the increment is `"OK"` when the error after delegation is nil and `"ERR"` when it is not,
and the observation is made in both cases with the elapsed time. -/
theorem metricInterceptor_records_once (dsn : DSN) (op : String) (options : Config)
    (next : Handler) (w : World) :
    ∃ own : List Event,
      (metricInterceptor bindSQL dsn op options next w).events = (next w).events ++ own ∧
      own.filter isCounterInc =
        [Event.counterInc MetricType.TypeGorm
          (dsn.DBName ++ "." ++ (next w).scope.Statement.Table) dsn.Addr
          (if (next w).scope.Error.isSome then "ERR" else "OK")] ∧
      own.filter isHistogramObserve =
        [Event.histogramObserve MetricType.TypeGorm
          (dsn.DBName ++ "." ++ (next w).scope.Statement.Table) dsn.Addr
          ((next w).now - w.now)] := by
  refine ⟨_, metricInterceptor_events bindSQL dsn op options next w, ?_, ?_⟩
  · cases (next w).scope.Error with
    | none =>
      by_cases h : options.SlowThreshold > 0 ∧ options.SlowThreshold < (next w).now - w.now <;>
        simp [h, List.filter, isCounterInc]
    | some err =>
      by_cases h : options.SlowThreshold > 0 ∧ options.SlowThreshold < (next w).now - w.now <;>
        cases hnf : errorsIs err ErrRecordNotFound <;>
          simp [h, hnf, List.filter, isCounterInc]
  · cases (next w).scope.Error with
    | none =>
      by_cases h : options.SlowThreshold > 0 ∧ options.SlowThreshold < (next w).now - w.now <;>
        simp [h, List.filter, isHistogramObserve]
    | some err =>
      by_cases h : options.SlowThreshold > 0 ∧ options.SlowThreshold < (next w).now - w.now <;>
        cases hnf : errorsIs err ErrRecordNotFound <;>
          simp [h, hnf, List.filter, isHistogramObserve]

/-- C5: for every configured slow threshold `t` and every measured elapsed time `c`, the
effects `metricInterceptor` adds after `next` returns hold exactly one slow-query log entry
if and only if `t > 0` and `c > t`; they hold none when `c <= t`, and none for any `c`
when `t` is zero or negative. -/
theorem metricInterceptor_slow_log (dsn : DSN) (op : String) (options : Config)
    (next : Handler) (w : World) (t c : Duration)
    (ht : options.SlowThreshold = t) (hc : (next w).now - w.now = c) :
    ∃ own : List Event,
      (metricInterceptor bindSQL dsn op options next w).events = (next w).events ++ own ∧
      ((own.filter isSlowLog).length = 1 ↔ (t > 0 ∧ c > t)) ∧
      (¬ (t > 0 ∧ c > t) → (own.filter isSlowLog).length = 0) ∧
      (c ≤ t → (own.filter isSlowLog).length = 0) ∧
      (t ≤ 0 → (own.filter isSlowLog).length = 0) := by
  have key : ∀ own : List Event,
      (own.filter isSlowLog).length = (if t > 0 ∧ c > t then 1 else 0) →
      ((own.filter isSlowLog).length = 1 ↔ (t > 0 ∧ c > t)) ∧
      (¬ (t > 0 ∧ c > t) → (own.filter isSlowLog).length = 0) ∧
      (c ≤ t → (own.filter isSlowLog).length = 0) ∧
      (t ≤ 0 → (own.filter isSlowLog).length = 0) := by
    intro own hlen
    by_cases h : t > 0 ∧ c > t
    · rw [if_pos h] at hlen
      exact ⟨⟨fun _ => h, fun _ => hlen⟩, fun hn => absurd h hn,
        fun hle => absurd hle (not_le.mpr h.2), fun hle => absurd hle (not_le.mpr h.1)⟩
    · rw [if_neg h] at hlen
      refine ⟨⟨fun h1 => ?_, fun h1 => absurd h1 h⟩, fun _ => hlen, fun _ => hlen,
        fun _ => hlen⟩
      omega
  refine ⟨_, metricInterceptor_events bindSQL dsn op options next w, key _ ?_⟩
  rw [ht, hc]
  cases (next w).scope.Error with
  | none =>
    by_cases h : t > 0 ∧ t < c
    · simp [h, List.filter, isSlowLog]
    · simp [h, List.filter, isSlowLog]
  | some err =>
    by_cases h : t > 0 ∧ t < c
    · cases hnf : errorsIs err ErrRecordNotFound <;> simp [h, hnf, List.filter, isSlowLog]
    · cases hnf : errorsIs err ErrRecordNotFound <;> simp [h, hnf, List.filter, isSlowLog]

/-- C6: for every operation context, when a `context.Context` is attached under
`"_context"` the handler produced by `traceInterceptor` starts exactly one span before it
delegates and finishes exactly one span after `next` returns, whatever error `next`
leaves; when the key is absent or its value is not a `context.Context`, it starts and
finishes no span and only delegates. -/
theorem traceInterceptor_spans (dsn : DSN) (op : String) (options : Config)
    (next : Handler) (w : World) :
    (∀ ctx : Context, w.scope.InstanceGet "_context" = some (Any.context ctx) →
      ∃ before after : List Event,
        traceInterceptor bindSQL dsn op options next w = (next (w.emit before)).emit after ∧
        before.countP isSpanStart = 1 ∧ before.countP isSpanFinish = 0 ∧
        after.countP isSpanStart = 0 ∧ after.countP isSpanFinish = 1) ∧
    ((∀ ctx : Context, w.scope.InstanceGet "_context" ≠ some (Any.context ctx)) →
      traceInterceptor bindSQL dsn op options next w = next w) := by
  constructor
  · intro ctx hctx
    simp only [traceInterceptor, hctx, emit_emit]
    exact ⟨_, _, rfl, by simp [isSpanStart], by simp [isSpanFinish], by simp [isSpanStart],
      by simp [isSpanFinish]⟩
  · intro hno
    unfold traceInterceptor
    split
    · next ctx hctx => exact absurd hctx (hno ctx)
    · rfl

/-- C9, as the code has it: when a trace context is attached, the span that
`traceInterceptor` starts is tagged at start with component `"mysql"` and kind `"client"`,
and after the delegated handler returns and before the span is finished it is tagged with
the database instance (`DBName`), the address (`Addr`), the peer-service name and the
rendered statement `logSQL(statement, vars, DetailSQL)`. -/
theorem traceInterceptor_tags (dsn : DSN) (op : String) (options : Config)
    (next : Handler) (w : World) (ctx : Context)
    (hctx : w.scope.InstanceGet "_context" = some (Any.context ctx)) :
    ∃ (span : Nat) (entered : World),
      entered = w.emit [Event.spanStart span ctx "GORM"
        [SpanOption.TagComponent "mysql", SpanOption.TagSpanKind "client"]] ∧
      (traceInterceptor bindSQL dsn op options next w).events =
        (next entered).events ++
          [Event.spanSetTag span "sql.inner" dsn.DBName,
           Event.spanSetTag span "sql.addr" dsn.Addr,
           Event.spanSetTag span "span.kind" "client",
           Event.spanSetTag span "peer.service" "mysql",
           Event.spanSetTag span "db.instance" dsn.DBName,
           Event.spanSetTag span "peer.address" dsn.Addr,
           Event.spanSetTag span "peer.statement"
             (logSQL bindSQL (next entered).scope.Statement.SQL
               (next entered).scope.Statement.Vars options.DetailSQL),
           Event.spanFinish span] := by
  refine ⟨w.events.length, _, rfl, ?_⟩
  simp only [traceInterceptor, hctx, emit_emit, emit_events]
  simp

end Properties

/-- C1 at a chain of all three interceptors with a trace context attached. -/
theorem replaceLoop_invokes_base_once_witness :
    (∀ inte ∈ [debugInterceptor plainSQL, metricInterceptor plainSQL,
        traceInterceptor plainSQL],
      inte = debugInterceptor plainSQL ∨ inte = metricInterceptor plainSQL ∨
        inte = traceInterceptor plainSQL) ∧
    (∀ w, (countingBase w).calls = w.calls + 1) ∧
    (replaceLoop sampleConfig "gorm:query"
      [debugInterceptor plainSQL, metricInterceptor plainSQL, traceInterceptor plainSQL]
      countingBase (startWorld tracedScope)).calls = 1 :=
  ⟨by simp, fun _ => rfl,
    (replaceLoop_invokes_base_once plainSQL sampleConfig "gorm:query"
      [debugInterceptor plainSQL, metricInterceptor plainSQL, traceInterceptor plainSQL]
      (by simp) countingBase (fun _ => rfl) (startWorld tracedScope)).1⟩

/-- C7 at a chain of all three interceptors around a base handler that fails. -/
theorem replaceLoop_preserves_scope_witness :
    (∀ inte ∈ [debugInterceptor plainSQL, metricInterceptor plainSQL,
        traceInterceptor plainSQL],
      inte = debugInterceptor plainSQL ∨ inte = metricInterceptor plainSQL ∨
        inte = traceInterceptor plainSQL) ∧
    ∃ w' : World, w'.scope = tracedScope ∧
      (replaceLoop sampleConfig "gorm:query"
        [debugInterceptor plainSQL, metricInterceptor plainSQL, traceInterceptor plainSQL]
        (failingBase ErrRecordNotFound 5) (startWorld tracedScope)).scope =
      (failingBase ErrRecordNotFound 5 w').scope :=
  ⟨by simp,
    let ⟨w', hs, h, _⟩ := replaceLoop_preserves_scope plainSQL sampleConfig "gorm:query"
      [debugInterceptor plainSQL, metricInterceptor plainSQL, traceInterceptor plainSQL]
      (by simp) (failingBase ErrRecordNotFound 5) (startWorld tracedScope)
    ⟨w', hs, h⟩⟩

/-- C2 fails as stated: around a counting base handler, the handler built from
`[debugInterceptor, metricInterceptor]` is not `debugInterceptor(metricInterceptor(base))`;
it emits the metrics after both lines of the debug interceptor, not between them. -/
theorem replaceLoop_not_outermost_first :
    (replaceLoop sampleConfig "gorm:query"
        [debugInterceptor plainSQL, metricInterceptor plainSQL]
        countingBase (startWorld sampleScope)).events ≠
      (nestOutermostFirst sampleConfig "gorm:query"
        [debugInterceptor plainSQL, metricInterceptor plainSQL]
        countingBase (startWorld sampleScope)).events := by
  decide

/-- C5 at a threshold of 3ns and an elapsed time of 5ns: one slow-query entry. -/
theorem metricInterceptor_slow_log_witness :
    ∃ own : List Event,
      (metricInterceptor plainSQL sampleDSN "gorm:query"
          { sampleConfig with SlowThreshold := 3 } (failingBase ErrRecordNotFound 5)
          (startWorld sampleScope)).events =
        (failingBase ErrRecordNotFound 5 (startWorld sampleScope)).events ++ own ∧
      (own.filter isSlowLog).length = 1 :=
  let ⟨own, h, hiff, _⟩ := metricInterceptor_slow_log plainSQL sampleDSN "gorm:query"
    { sampleConfig with SlowThreshold := 3 } (failingBase ErrRecordNotFound 5)
    (startWorld sampleScope) 3 5 rfl (by decide)
  ⟨own, h, hiff.mpr (by decide)⟩

/-- C6 at the sample operation context with a trace context attached. -/
theorem traceInterceptor_spans_witness :
    tracedScope.InstanceGet "_context" = some (Any.context ⟨1⟩) ∧
    ∃ before after : List Event,
      traceInterceptor plainSQL sampleDSN "gorm:query" sampleConfig
          (failingBase ErrRecordNotFound 5) (startWorld tracedScope) =
        (failingBase ErrRecordNotFound 5 ((startWorld tracedScope).emit before)).emit after ∧
      before.countP isSpanStart = 1 ∧ before.countP isSpanFinish = 0 ∧
      after.countP isSpanStart = 0 ∧ after.countP isSpanFinish = 1 :=
  ⟨by decide,
    (traceInterceptor_spans plainSQL sampleDSN "gorm:query" sampleConfig
      (failingBase ErrRecordNotFound 5) (startWorld tracedScope)).1 ⟨1⟩ (by decide)⟩

/-- C9, as the code has it, at the sample operation context with a trace context. -/
theorem traceInterceptor_tags_witness :
    tracedScope.InstanceGet "_context" = some (Any.context ⟨1⟩) ∧
    ∃ (span : Nat) (entered : World),
      entered = (startWorld tracedScope).emit [Event.spanStart span ⟨1⟩ "GORM"
        [SpanOption.TagComponent "mysql", SpanOption.TagSpanKind "client"]] ∧
      (traceInterceptor plainSQL sampleDSN "gorm:query" sampleConfig countingBase
          (startWorld tracedScope)).events =
        (countingBase entered).events ++
          [Event.spanSetTag span "sql.inner" sampleDSN.DBName,
           Event.spanSetTag span "sql.addr" sampleDSN.Addr,
           Event.spanSetTag span "span.kind" "client",
           Event.spanSetTag span "peer.service" "mysql",
           Event.spanSetTag span "db.instance" sampleDSN.DBName,
           Event.spanSetTag span "peer.address" sampleDSN.Addr,
           Event.spanSetTag span "peer.statement"
             (logSQL plainSQL (countingBase entered).scope.Statement.SQL
               (countingBase entered).scope.Statement.Vars sampleConfig.DetailSQL),
           Event.spanFinish span] :=
  ⟨by decide,
    traceInterceptor_tags plainSQL sampleDSN "gorm:query" sampleConfig countingBase
      (startWorld tracedScope) ⟨1⟩ (by decide)⟩

/-- C9 fails as stated: with a trace context attached, the one span `traceInterceptor`
starts is tagged with component `"mysql"`, and no span is started with component
`"database"`. -/
theorem traceInterceptor_component_not_database :
    ((traceInterceptor plainSQL sampleDSN "gorm:query" sampleConfig countingBase
        (startWorld tracedScope)).events.filter isSpanStart).length = 1 ∧
    (traceInterceptor plainSQL sampleDSN "gorm:query" sampleConfig countingBase
        (startWorld tracedScope)).events.any (startsWithComponent "mysql") = true ∧
    (traceInterceptor plainSQL sampleDSN "gorm:query" sampleConfig countingBase
        (startWorld tracedScope)).events.any (startsWithComponent "database") = false := by
  decide

/-- C3 on the code: when the delegated handler leaves `ErrRecordNotFound`,
`metricInterceptor` writes its entry at the higher severity (Error, `"mysql err"`), and
when it leaves any other error it writes the entry at the lower severity (Warn,
`"record not found"`): the two branches are the other way round. -/
theorem metricInterceptor_record_not_found_severity :
    (metricInterceptor plainSQL sampleDSN "gorm:query" sampleConfig
        (failingBase ErrRecordNotFound 5) (startWorld sampleScope)).events =
      [Event.counterInc MetricType.TypeGorm "shop.users" "db:3306" "ERR",
       Event.log Level.error "mysql err"
         [Field.FieldErr ErrRecordNotFound, Field.FieldName "shop.users",
          Field.FieldMethod "gorm:query"],
       Event.histogramObserve MetricType.TypeGorm "shop.users" "db:3306" 5] ∧
    (metricInterceptor plainSQL sampleDSN "gorm:query" sampleConfig
        (failingBase (GoError.other "connection refused") 5) (startWorld sampleScope)).events =
      [Event.counterInc MetricType.TypeGorm "shop.users" "db:3306" "ERR",
       Event.log Level.warn "record not found"
         [Field.FieldErr (GoError.other "connection refused"), Field.FieldName "shop.users",
          Field.FieldMethod "gorm:query"],
       Event.histogramObserve MetricType.TypeGorm "shop.users" "db:3306" 5] := by
  decide

/-- What the closure `replace` does on a recording processor: one call of `Replace` is
recorded, with the handler built by the loop around `processor.Get(name)`. -/
theorem replace_recorded {σ : Type} (options : Config) (kind : ProcessorKind)
    (p : CallbackProcessor σ) (name : String) (interceptors : List Interceptor)
    (s : σ) (done : List Replacement) :
    replace options (p.recorded kind) name interceptors (s, done) =
      match (p.Replace s name (replaceLoop options name interceptors (p.Get s name))).2 with
      | some err =>
          Except.error
            (((p.Replace s name (replaceLoop options name interceptors (p.Get s name))).1,
              done ++ [{ processor := kind, callbackName := name, old := p.Get s name,
                         handler := replaceLoop options name interceptors (p.Get s name),
                         err := some err }]),
             Event.log Level.panic "failed to replace interceptor" [Field.FieldErr err])
      | none =>
          Except.ok
            ((p.Replace s name (replaceLoop options name interceptors (p.Get s name))).1,
              done ++ [{ processor := kind, callbackName := name, old := p.Get s name,
                         handler := replaceLoop options name interceptors (p.Get s name),
                         err := none }]) := by
  simp only [replace, loggerPanic, CallbackProcessor.recorded]
  cases h : (p.Replace s name (replaceLoop options name interceptors (p.Get s name))).2 <;>
    simp [h]

/-- C10, as the code has it: for every configuration whose connection opens, `Open` calls
`Replace` for the five operation kinds in the order delete, update, create, query, row,
at most once each and under the callback names `"gorm:delete"`, `"gorm:update"`,
`"gorm:create"`, `"gorm:query"`, `"gorm:row"`, each time installing the chain built from
the same interceptor list around the handler that kind had (with an empty list, that
handler itself).  It stops at the first call that returns an error and fails fatally
there, so it fails fatally if and only if some replacement it made returned an error, and
it makes all five replacements, exactly one for each kind, whenever it does not. -/
theorem Open_replacements {σ : Type} (engine : Engine σ) (options : Config)
    (interceptors : List Interceptor) (registry : σ)
    (hopen : engine.gormOpen options.DSN = Except.ok registry)
    (hdb : engine.sqlDB registry = Except.ok ()) :
    let result := Open engine.recorded options interceptors
    let done := result.replacements
    (done.map (fun c => (c.processor, c.callbackName)) = fiveKinds.take done.length ∧
      1 ≤ done.length) ∧
    (∀ c ∈ done, c.handler = replaceLoop options c.callbackName interceptors c.old) ∧
    (interceptors = [] → ∀ c ∈ done, c.handler = c.old) ∧
    (result.isFatal = true ↔ ∃ c ∈ done, c.err ≠ none) ∧
    (result.isFatal = false →
      done.map (fun c => (c.processor, c.callbackName)) = fiveKinds) ∧
    (∀ c ∈ done.dropLast, c.err = none) := by
  intro result done
  have hloop : interceptors = [] → ∀ (name : String) (h : Handler),
      replaceLoop options name interceptors h = h := by
    intro hnil name h
    subst hnil
    rfl
  simp only [result, done, Open, Engine.recorded, hopen, hdb, replaceAll, bind, Except.bind,
    replace_recorded]
  rcases hr1 : engine.Callback.Delete.Replace registry "gorm:delete"
    (replaceLoop options "gorm:delete" interceptors
      (engine.Callback.Delete.Get registry "gorm:delete")) with ⟨s1, e1⟩
  cases e1 with
  | some err =>
    simp [OpenResult.replacements, OpenResult.isFatal, fiveKinds]
    intro hnil
    simp [hloop hnil]
  | none =>
    simp only [replace_recorded, hr1]
    rcases hr2 : engine.Callback.Update.Replace s1 "gorm:update"
      (replaceLoop options "gorm:update" interceptors
        (engine.Callback.Update.Get s1 "gorm:update")) with ⟨s2, e2⟩
    cases e2 with
    | some err =>
      simp [OpenResult.replacements, OpenResult.isFatal, fiveKinds]
      intro hnil
      simp [hloop hnil]
    | none =>
      simp only [replace_recorded, hr2]
      rcases hr3 : engine.Callback.Create.Replace s2 "gorm:create"
        (replaceLoop options "gorm:create" interceptors
          (engine.Callback.Create.Get s2 "gorm:create")) with ⟨s3, e3⟩
      cases e3 with
      | some err =>
        simp [OpenResult.replacements, OpenResult.isFatal, fiveKinds]
        intro hnil
        simp [hloop hnil]
      | none =>
        simp only [replace_recorded, hr3]
        rcases hr4 : engine.Callback.Query.Replace s3 "gorm:query"
          (replaceLoop options "gorm:query" interceptors
            (engine.Callback.Query.Get s3 "gorm:query")) with ⟨s4, e4⟩
        cases e4 with
        | some err =>
          simp [OpenResult.replacements, OpenResult.isFatal, fiveKinds]
          intro hnil
          simp [hloop hnil]
        | none =>
          simp only [replace_recorded, hr4]
          rcases hr5 : engine.Callback.Row.Replace s4 "gorm:row"
            (replaceLoop options "gorm:row" interceptors
              (engine.Callback.Row.Get s4 "gorm:row")) with ⟨s5, e5⟩
          cases e5 with
          | some err =>
            simp [OpenResult.replacements, OpenResult.isFatal, fiveKinds]
            intro hnil
            simp [hloop hnil]
          | none =>
            simp only [replace_recorded, hr5]
            simp [OpenResult.replacements, OpenResult.isFatal, fiveKinds]
            intro hnil
            simp [hloop hnil]

/-- C10, as the code has it, at an engine whose every `Replace` succeeds: five
replacements, one for each kind. -/
theorem Open_replacements_witness :
    acceptingEngine.gormOpen sampleConfig.DSN = Except.ok () ∧
    acceptingEngine.sqlDB () = Except.ok () ∧
    (Open acceptingEngine.recorded sampleConfig
        [metricInterceptor plainSQL]).replacements.map
      (fun c => (c.processor, c.callbackName)) = fiveKinds :=
  ⟨rfl, rfl,
    (Open_replacements acceptingEngine sampleConfig [metricInterceptor plainSQL] ()
      rfl rfl).2.2.2.2.1 rfl⟩

/-- C10 fails as stated: at an engine that opens and whose `Replace` returns an error,
`Open` fails fatally after the single replacement of `"gorm:delete"`, and makes none for
the other four kinds. -/
theorem Open_stops_at_first_failed_replacement :
    rejectingEngine.gormOpen sampleConfig.DSN = Except.ok () ∧
    rejectingEngine.sqlDB () = Except.ok () ∧
    (Open rejectingEngine.recorded sampleConfig []).isFatal = true ∧
    (Open rejectingEngine.recorded sampleConfig []).replacements.map
      (fun c => (c.processor, c.callbackName)) = [(ProcessorKind.Delete, "gorm:delete")] ∧
    ((Open rejectingEngine.recorded sampleConfig []).replacements.filter
      (fun c => decide (c.callbackName = "gorm:update"))).length = 0 :=
  ⟨rfl, rfl, rfl, rfl, by decide⟩

/-- A stretch of the statement without a placeholder is kept, and the substitution goes on
after it with the same arguments. -/
theorem bindChars_piece (text : Any → String) (piece rest : List Char) (args : List Any)
    (hpiece : '?' ∉ piece) :
    bindChars text (piece ++ rest) args = piece ++ bindChars text rest args := by
  induction piece with
  | nil => rfl
  | cons c cs ih =>
    have hc : c ≠ '?' := fun h => hpiece (h ▸ List.mem_cons_self _ _)
    have hcs : '?' ∉ cs := fun h => hpiece (List.mem_cons_of_mem _ h)
    simp [bindChars, hc, ih hcs]

/-- A placeholder with an argument left becomes the text of that argument, and the
substitution goes on after it with the remaining arguments. -/
theorem bindChars_placeholder (text : Any → String) (rest : List Char) (a : Any)
    (more : List Any) :
    bindChars text ('?' :: rest) (a :: more) = (text a).data ++ bindChars text rest more := by
  simp [bindChars]

/-- The substitution on a statement cut at its placeholders. -/
theorem bindChars_pieces (text : Any → String) (pieces : List String) (last : String)
    (args : List Any) (hpieces : ∀ p ∈ pieces, '?' ∉ p.data) (hlast : '?' ∉ last.data)
    (hlen : pieces.length = args.length) :
    bindChars text (((pieces.map (fun p => p ++ "?")).map String.data).flatten ++ last.data)
        args =
      ((List.zipWith (fun p a => p ++ text a) pieces args).map String.data).flatten ++
        last.data := by
  induction pieces generalizing args with
  | nil =>
    have h := bindChars_piece text last.data [] args hlast
    simpa [bindChars] using h
  | cons p ps ih =>
    cases args with
    | nil => simp at hlen
    | cons a more =>
      have hp : '?' ∉ p.data := hpieces p (List.mem_cons_self _ _)
      have hps : ∀ q ∈ ps, '?' ∉ q.data := fun q hq => hpieces q (List.mem_cons_of_mem _ hq)
      have hlen' : ps.length = more.length := by simpa using hlen
      have hstep := ih more hps hlen'
      simp only [List.map_cons, List.flatten_cons, String.data_append, List.zipWith_cons_cons,
        List.append_assoc]
      rw [bindChars_piece text p.data _ (a :: more) hp]
      rw [List.singleton_append, bindChars_placeholder, hstep]

/-- C8: for every statement `sql` and every argument list `args`,
`logSQL(sql, args, false)` returns `sql` unchanged and `logSQL(sql, args, true)` returns
`bindSQL(sql, args)`, the statement with every positional placeholder substituted by its
corresponding value's textual representation: when the statement is the pieces
`p1 ? p2 ? ... pn ? last`, none of them holding a placeholder, and the arguments are
`a1, ..., an`, the result is `p1 text(a1) p2 text(a2) ... pn text(an) last`. -/
theorem logSQL_renders (text : Any → String) (sql : String) (args : List Any) :
    logSQL (bindSQL text) sql args false = sql ∧
    logSQL (bindSQL text) sql args true = bindSQL text sql args ∧
    ∀ (pieces : List String) (last : String),
      (∀ p ∈ pieces, '?' ∉ p.data) → '?' ∉ last.data → pieces.length = args.length →
      sql = String.join (pieces.map (fun p => p ++ "?")) ++ last →
      logSQL (bindSQL text) sql args true =
        String.join (List.zipWith (fun p a => p ++ text a) pieces args) ++ last := by
  refine ⟨by simp [logSQL], by simp [logSQL], ?_⟩
  intro pieces last hpieces hlast hlen hsql
  subst hsql
  apply String.ext
  simp only [logSQL, if_true, bindSQL, String.data_append, String.data_join]
  exact bindChars_pieces text pieces last args hpieces hlast hlen

/-- C8 at a statement with two placeholders and two arguments. -/
theorem logSQL_renders_witness :
    (∀ p ∈ ["SELECT * FROM users WHERE id = ", " AND name = "], '?' ∉ p.data) ∧
    '?' ∉ (" LIMIT 1" : String).data ∧
    logSQL (bindSQL sampleText) "SELECT * FROM users WHERE id = ? AND name = ? LIMIT 1"
        [Any.int 7, Any.str "bob"] true =
      "SELECT * FROM users WHERE id = 7 AND name = bob LIMIT 1" :=
  ⟨by decide, by decide,
    (logSQL_renders sampleText "SELECT * FROM users WHERE id = ? AND name = ? LIMIT 1"
      [Any.int 7, Any.str "bob"]).2.2
      ["SELECT * FROM users WHERE id = ", " AND name = "] " LIMIT 1"
      (by decide) (by decide) rfl (by decide)⟩

end Gorm
